import Mathlib

/-!
Verification of the RTPS message-batching engine declared in
src/include/fastrtps/rtps/messages/RTPSMessageGroup.h.

The header declares the data carrier RTPSMessageGroup_t (with its inline
constructor), the inline accessor get_current_bytes_processed, the default
deadline argument of the RTPSMessageGroup constructor, and the signatures of
the batching operations.  The bodies of those operations are not part of the
sources, so they are modelled from the specification's description of the
shared insertion algorithm, with buffers reduced to their capacity, write
cursor and header content, destinations to plain numbers, and effective
submessage lengths given as inputs (the wire encoder is an external
collaborator).
-/

namespace FastRTPS

/-- Size in bytes of the RTPS protocol header written at the start of the
full message buffer (20 bytes, as used by the specification's scenarios). -/
def RTPSMESSAGE_HEADER_SIZE : Nat := 20

/-- Modelled from the spec: length in bytes of the destination-framing
(INFO_DST) submessage appended by add_info_dst_in_buffer; the encoder
producing it is not under the sources (16 bytes, as used by the
specification's scenarios). -/
def INFO_DST_SUBMESSAGE_SIZE : Nat := 16

/-- Model of CDRMessage_t: a byte buffer reduced to its capacity (max_size),
its write cursor (length), and the sender id carried by its header (none
until addHeader writes it). -/
structure CDRMessage_t where
  max_size : Nat
  length : Nat
  header_guid : Option Nat
  deriving DecidableEq

/-- Model of CDRMessage::initCDRMsg: resets the write cursor, leaving the
buffer without meaningful content. -/
def initCDRMsg (m : CDRMessage_t) : CDRMessage_t :=
  { m with length := 0, header_guid := none }

/-- Modelled from the spec: RTPSMessageCreator::addHeader (not under the
sources) writes the protocol header carrying the sender participant id at
the start of the buffer, advancing the cursor to the header size. -/
def addHeader (m : CDRMessage_t) (participant_guid : Nat) : CDRMessage_t :=
  { m with length := RTPSMESSAGE_HEADER_SIZE, header_guid := some participant_guid }

/-- Model of RTPSMessageGroup_t (header lines 44-69): the scratch submessage
buffer, the full message buffer, and the encryption buffer that exists only
when the security feature is compiled in (modelled with Option). -/
structure RTPSMessageGroup_t where
  rtpsmsg_submessage_ : CDRMessage_t
  rtpsmsg_fullmsg_ : CDRMessage_t
  rtpsmsg_encrypt_ : Option CDRMessage_t
  deriving DecidableEq

/-- Model of the RTPSMessageGroup_t constructor (header lines 48-60):
allocates the scratch and full buffers with capacity payload; when
HAVE_SECURITY is compiled in (have_security), allocates the encryption
buffer with capacity payload if has_security and 0 otherwise; then runs
initCDRMsg and addHeader on the full buffer. -/
def RTPSMessageGroup_t.construct (payload : Nat) (participant_guid : Nat)
    (have_security : Bool) (has_security : Bool) : RTPSMessageGroup_t :=
  { rtpsmsg_submessage_ := ⟨payload, 0, none⟩
  , rtpsmsg_fullmsg_ := addHeader (initCDRMsg ⟨payload, 0, none⟩) participant_guid
  , rtpsmsg_encrypt_ :=
      if have_security then some ⟨if has_security then payload else 0, 0, none⟩
      else none }

/-- State of an RTPSMessageGroup over its full buffer: the accumulating
message (full_msg_), the destination tracker current_dst_ (none models
c_GuidPrefix_Unknown, that is, no destination framed), the
currentBytesSent_ counter, and, for the model, the lengths of the messages
handed to the sender so far, in order. -/
structure GroupState where
  full_msg : CDRMessage_t
  current_dst : Option Nat
  currentBytesSent : Nat
  sends : List Nat
  deriving DecidableEq

namespace GroupState

/-- Modelled from the spec: send() hands the full buffer to the sender
capability when it holds more than the bare header, accounting the bytes in
currentBytesSent_; a header-only buffer produces no send. -/
def send (st : GroupState) : GroupState :=
  if RTPSMESSAGE_HEADER_SIZE < st.full_msg.length then
    { st with sends := st.sends ++ [st.full_msg.length]
            , currentBytesSent := st.currentBytesSent + st.full_msg.length }
  else st

/-- Modelled from the spec: reset_to_header() truncates the full buffer to
header length and clears the destination tracker. -/
def reset_to_header (st : GroupState) : GroupState :=
  { st with full_msg := { st.full_msg with length := RTPSMESSAGE_HEADER_SIZE }
          , current_dst := none }

/-- Modelled from the spec: flush() hands the full buffer's current bytes to
send. -/
def flush (st : GroupState) : GroupState := send st

/-- Modelled from the spec: flush_and_reset() forces a send of any
accumulated content, then returns the group to the empty state (header-only
buffer, no destination framed). -/
def flush_and_reset (st : GroupState) : GroupState := reset_to_header (flush st)

/-- Modelled from the spec: add_info_dst_in_buffer appends the
destination-framing submessage naming the target and records it as the
tracked destination. -/
def add_info_dst (st : GroupState) (dst : Nat) : GroupState :=
  { st with full_msg :=
      { st.full_msg with length := st.full_msg.length + INFO_DST_SUBMESSAGE_SIZE }
          , current_dst := some dst }

/-- Modelled from the spec: check_and_maybe_flush(), steps 1 and 2 of the
shared insertion algorithm: if a destination is framed and differs from the
target, flush the full buffer and reset it to header-only; then, if no
destination is framed, append the destination framing. -/
def check_and_maybe_flush (st : GroupState) (dst : Nat) : GroupState :=
  let st1 :=
    match st.current_dst with
    | some d => if d = dst then st else flush_and_reset st
    | none => st
  match st1.current_dst with
  | none => add_info_dst st1 dst
  | some _ => st1

/-- Step 5 of the shared insertion algorithm: append the effective
submessage bytes to the full buffer, advancing its length. -/
def append_bytes (st : GroupState) (eff : Nat) : GroupState :=
  { st with full_msg := { st.full_msg with length := st.full_msg.length + eff } }

/-- Modelled from the spec: insert_submessage(), steps 4 and 5 of the shared
insertion algorithm, run after check_and_maybe_flush: if header_length +
full_buffer_length + effective_length would exceed capacity, flush the full
buffer and reset to header-only, and recompute counting the unavoidable
destination-framing overhead; if it still does not fit, return false
without appending; otherwise (re-framing the destination when the buffer
was reset) append the effective bytes. -/
def insert_submessage (st : GroupState) (dst : Nat) (eff : Nat) : GroupState × Bool :=
  if RTPSMESSAGE_HEADER_SIZE + st.full_msg.length + eff ≤ st.full_msg.max_size then
    (append_bytes st eff, true)
  else
    let st2 := flush_and_reset st
    if RTPSMESSAGE_HEADER_SIZE + st2.full_msg.length + INFO_DST_SUBMESSAGE_SIZE + eff
        ≤ st2.full_msg.max_size then
      (append_bytes (add_info_dst st2 dst) eff, true)
    else
      (st2, false)

/-- Modelled from the spec: an add-* operation (add_data and the other
submessage kinds) once the external encoder has produced eff effective
submessage bytes for destination dst: destination handling followed by the
shared insertion algorithm. -/
def add_data (st : GroupState) (dst : Nat) (eff : Nat) : GroupState × Bool :=
  insert_submessage (check_and_maybe_flush st dst) dst eff

/-- get_current_bytes_processed() (header line 179): currentBytesSent_ plus
the full buffer's length. -/
def get_current_bytes_processed (st : GroupState) : Nat :=
  st.currentBytesSent + st.full_msg.length

/-- Model of the RTPSMessageGroup constructor binding a freshly constructed
RTPSMessageGroup_t: the full buffer already carries the header, no
destination is framed, and the byte accounting of the batch starts at
zero. -/
def initial (payload participant_guid : Nat)
    (have_security has_security : Bool) : GroupState :=
  { full_msg :=
      (RTPSMessageGroup_t.construct payload participant_guid
        have_security has_security).rtpsmsg_fullmsg_
  , current_dst := none
  , currentBytesSent := 0
  , sends := [] }

/-- Model of the nested exception class RTPSMessageGroup::timeout (header
lines 81-88). -/
inductive GroupError where
  | timeout
  deriving DecidableEq

/-- std::chrono::hours n of the steady clock, in nanoseconds. -/
def chrono_hours (n : Nat) : Nat := n * 3600 * 1000000000

/-- The default max_blocking_time_point argument of the RTPSMessageGroup
constructor (header lines 105-106): the monotonic clock reading at
construction plus 24 hours. -/
def default_max_blocking_time_point (now : Nat) : Nat := now + chrono_hours 24

/-- Modelled from the spec: the destructor of RTPSMessageGroup, declared
noexcept(false) at header line 108 with its body not under the sources:
when content is pending it performs the work of flush_and_reset, and a send
attempted past the deadline fails with timeout, which propagates out of
teardown instead of being swallowed. -/
def teardown (st : GroupState) (now deadline : Nat) : Except GroupError GroupState :=
  if RTPSMESSAGE_HEADER_SIZE < st.full_msg.length then
    if deadline < now then Except.error GroupError.timeout
    else Except.ok (flush_and_reset st)
  else Except.ok st

/-- Runs a sequence of add-* calls of the given effective lengths, all to
one destination, conjoining the returned flags. -/
def run_adds (st : GroupState) (dst : Nat) (effs : List Nat) : GroupState × Bool :=
  match effs with
  | [] => (st, true)
  | e :: rest =>
    let p1 := add_data st dst e
    let p2 := run_adds p1.1 dst rest
    (p2.1, p1.2 && p2.2)

/-- The group state reached in the specification's Scenario B: capacity
16384, four add_data calls of 4000 effective bytes each to one destination,
followed by the teardown flush. -/
def scenarioB_final : GroupState :=
  flush_and_reset (run_adds (initial 16384 7 false false) 0 [4000, 4000, 4000, 4000]).1

theorem flush_and_reset_eq (st : GroupState) :
    flush_and_reset st =
      { full_msg := { st.full_msg with length := RTPSMESSAGE_HEADER_SIZE }
      , current_dst := none
      , currentBytesSent := st.currentBytesSent +
          (if RTPSMESSAGE_HEADER_SIZE < st.full_msg.length then st.full_msg.length else 0)
      , sends := st.sends ++
          (if RTPSMESSAGE_HEADER_SIZE < st.full_msg.length then [st.full_msg.length] else []) } := by
  unfold flush_and_reset flush send reset_to_header
  split <;> simp_all

theorem flush_and_reset_dst (st : GroupState) :
    (flush_and_reset st).current_dst = none := by
  rw [flush_and_reset_eq]

theorem flush_and_reset_len (st : GroupState) :
    (flush_and_reset st).full_msg.length = RTPSMESSAGE_HEADER_SIZE := by
  rw [flush_and_reset_eq]

theorem flush_and_reset_max (st : GroupState) :
    (flush_and_reset st).full_msg.max_size = st.full_msg.max_size := by
  rw [flush_and_reset_eq]

theorem flush_and_reset_guid (st : GroupState) :
    (flush_and_reset st).full_msg.header_guid = st.full_msg.header_guid := by
  rw [flush_and_reset_eq]

theorem flush_and_reset_sends_of_gt (st : GroupState)
    (h : RTPSMESSAGE_HEADER_SIZE < st.full_msg.length) :
    (flush_and_reset st).sends = st.sends ++ [st.full_msg.length] := by
  rw [flush_and_reset_eq]
  show st.sends ++ (if RTPSMESSAGE_HEADER_SIZE < st.full_msg.length
    then [st.full_msg.length] else []) = st.sends ++ [st.full_msg.length]
  rw [if_pos h]

theorem teardown_sends_single (st : GroupState) (n : Nat)
    (hs : st.sends = []) (hl : st.full_msg.length = n)
    (hgt : RTPSMESSAGE_HEADER_SIZE < n) :
    (flush_and_reset st).sends = [n] := by
  rw [flush_and_reset_eq]
  show st.sends ++ (if RTPSMESSAGE_HEADER_SIZE < st.full_msg.length
      then [st.full_msg.length] else []) = [n]
  rw [hs, hl, if_pos hgt]
  rfl

theorem check_same_dst (st : GroupState) (dst : Nat)
    (h : st.current_dst = some dst) :
    check_and_maybe_flush st dst = st := by
  unfold check_and_maybe_flush
  simp [h]

theorem check_new_dst (st : GroupState) (dst : Nat)
    (h : st.current_dst = none) :
    check_and_maybe_flush st dst = add_info_dst st dst := by
  unfold check_and_maybe_flush
  simp [h, add_info_dst]

theorem check_change_dst (st : GroupState) (d dst : Nat)
    (h : st.current_dst = some d) (hne : d ≠ dst) :
    check_and_maybe_flush st dst = add_info_dst (flush_and_reset st) dst := by
  unfold check_and_maybe_flush
  simp [h, hne, flush_and_reset_dst]

theorem insert_fits (st : GroupState) (dst eff : Nat)
    (h : RTPSMESSAGE_HEADER_SIZE + st.full_msg.length + eff ≤ st.full_msg.max_size) :
    insert_submessage st dst eff = (append_bytes st eff, true) := by
  unfold insert_submessage
  simp [h]

theorem insert_retry (st : GroupState) (dst eff : Nat)
    (h1 : ¬ RTPSMESSAGE_HEADER_SIZE + st.full_msg.length + eff ≤ st.full_msg.max_size)
    (h2 : RTPSMESSAGE_HEADER_SIZE + RTPSMESSAGE_HEADER_SIZE + INFO_DST_SUBMESSAGE_SIZE + eff
        ≤ st.full_msg.max_size) :
    insert_submessage st dst eff =
      (append_bytes (add_info_dst (flush_and_reset st) dst) eff, true) := by
  unfold insert_submessage
  simp [h1, flush_and_reset_len, flush_and_reset_max, h2]

theorem insert_too_big (st : GroupState) (dst eff : Nat)
    (h1 : ¬ RTPSMESSAGE_HEADER_SIZE + st.full_msg.length + eff ≤ st.full_msg.max_size)
    (h2 : ¬ RTPSMESSAGE_HEADER_SIZE + RTPSMESSAGE_HEADER_SIZE + INFO_DST_SUBMESSAGE_SIZE + eff
        ≤ st.full_msg.max_size) :
    insert_submessage st dst eff = (flush_and_reset st, false) := by
  unfold insert_submessage
  simp [h1, flush_and_reset_len, flush_and_reset_max, h2]

theorem initial_eq (payload participant_guid : Nat) (hs1 hs2 : Bool) :
    initial payload participant_guid hs1 hs2 =
      { full_msg := ⟨payload, RTPSMESSAGE_HEADER_SIZE, some participant_guid⟩
      , current_dst := none
      , currentBytesSent := 0
      , sends := [] } := rfl

theorem gcbp_add_info_dst (st : GroupState) (dst : Nat) :
    get_current_bytes_processed (add_info_dst st dst) =
      get_current_bytes_processed st + INFO_DST_SUBMESSAGE_SIZE := by
  simp [get_current_bytes_processed, add_info_dst]
  omega

theorem gcbp_append_bytes (st : GroupState) (eff : Nat) :
    get_current_bytes_processed (append_bytes st eff) =
      get_current_bytes_processed st + eff := by
  simp [get_current_bytes_processed, append_bytes]
  omega

theorem gcbp_flush_and_reset_ge (st : GroupState) :
    get_current_bytes_processed st ≤
      get_current_bytes_processed (flush_and_reset st) := by
  rw [flush_and_reset_eq]
  unfold get_current_bytes_processed
  split
  · simp
  · simp
    omega

theorem gcbp_check_ge (st : GroupState) (dst : Nat) :
    get_current_bytes_processed st ≤
      get_current_bytes_processed (check_and_maybe_flush st dst) := by
  cases h : st.current_dst with
  | none =>
    rw [check_new_dst st dst h, gcbp_add_info_dst]
    omega
  | some d =>
    by_cases hd : d = dst
    · rw [hd] at h
      rw [check_same_dst st dst h]
    · rw [check_change_dst st d dst h hd, gcbp_add_info_dst]
      have hfr := gcbp_flush_and_reset_ge st
      omega

theorem gcbp_insert_ge (st : GroupState) (dst eff : Nat) :
    get_current_bytes_processed st ≤
      get_current_bytes_processed (insert_submessage st dst eff).1 := by
  by_cases h1 : RTPSMESSAGE_HEADER_SIZE + st.full_msg.length + eff ≤ st.full_msg.max_size
  · rw [insert_fits st dst eff h1]
    simp [gcbp_append_bytes]
  · by_cases h2 : RTPSMESSAGE_HEADER_SIZE + RTPSMESSAGE_HEADER_SIZE +
        INFO_DST_SUBMESSAGE_SIZE + eff ≤ st.full_msg.max_size
    · rw [insert_retry st dst eff h1 h2]
      have hfr := gcbp_flush_and_reset_ge st
      simp [gcbp_append_bytes, gcbp_add_info_dst]
      omega
    · rw [insert_too_big st dst eff h1 h2]
      exact gcbp_flush_and_reset_ge st

theorem gcbp_add_data_ge (st : GroupState) (dst eff : Nat) :
    get_current_bytes_processed st ≤
      get_current_bytes_processed (add_data st dst eff).1 := by
  calc get_current_bytes_processed st
      ≤ get_current_bytes_processed (check_and_maybe_flush st dst) :=
        gcbp_check_ge st dst
    _ ≤ get_current_bytes_processed
          (insert_submessage (check_and_maybe_flush st dst) dst eff).1 :=
        gcbp_insert_ge (check_and_maybe_flush st dst) dst eff

theorem acc_flush_and_reset (st : GroupState)
    (h : st.currentBytesSent = st.sends.sum) :
    (flush_and_reset st).currentBytesSent = (flush_and_reset st).sends.sum := by
  rw [flush_and_reset_eq]
  split <;> simp [h]

theorem acc_check (st : GroupState) (dst : Nat)
    (h : st.currentBytesSent = st.sends.sum) :
    (check_and_maybe_flush st dst).currentBytesSent =
      (check_and_maybe_flush st dst).sends.sum := by
  cases hc : st.current_dst with
  | none => rw [check_new_dst st dst hc]; exact h
  | some d =>
    by_cases hd : d = dst
    · rw [hd] at hc
      rw [check_same_dst st dst hc]; exact h
    · rw [check_change_dst st d dst hc hd]
      exact acc_flush_and_reset st h

theorem acc_insert (st : GroupState) (dst eff : Nat)
    (h : st.currentBytesSent = st.sends.sum) :
    (insert_submessage st dst eff).1.currentBytesSent =
      (insert_submessage st dst eff).1.sends.sum := by
  by_cases h1 : RTPSMESSAGE_HEADER_SIZE + st.full_msg.length + eff ≤ st.full_msg.max_size
  · rw [insert_fits st dst eff h1]; exact h
  · by_cases h2 : RTPSMESSAGE_HEADER_SIZE + RTPSMESSAGE_HEADER_SIZE +
        INFO_DST_SUBMESSAGE_SIZE + eff ≤ st.full_msg.max_size
    · rw [insert_retry st dst eff h1 h2]
      exact acc_flush_and_reset st h
    · rw [insert_too_big st dst eff h1 h2]
      exact acc_flush_and_reset st h

theorem acc_add_data (st : GroupState) (dst eff : Nat)
    (h : st.currentBytesSent = st.sends.sum) :
    (add_data st dst eff).1.currentBytesSent =
      (add_data st dst eff).1.sends.sum :=
  acc_insert (check_and_maybe_flush st dst) dst eff (acc_check st dst h)

theorem guid_check (st : GroupState) (dst : Nat) :
    (check_and_maybe_flush st dst).full_msg.header_guid =
      st.full_msg.header_guid := by
  cases hc : st.current_dst with
  | none => rw [check_new_dst st dst hc]; rfl
  | some d =>
    by_cases hd : d = dst
    · rw [hd] at hc
      rw [check_same_dst st dst hc]
    · rw [check_change_dst st d dst hc hd]
      show (flush_and_reset st).full_msg.header_guid = _
      exact flush_and_reset_guid st

theorem guid_insert (st : GroupState) (dst eff : Nat) :
    (insert_submessage st dst eff).1.full_msg.header_guid =
      st.full_msg.header_guid := by
  by_cases h1 : RTPSMESSAGE_HEADER_SIZE + st.full_msg.length + eff ≤ st.full_msg.max_size
  · rw [insert_fits st dst eff h1]; rfl
  · by_cases h2 : RTPSMESSAGE_HEADER_SIZE + RTPSMESSAGE_HEADER_SIZE +
        INFO_DST_SUBMESSAGE_SIZE + eff ≤ st.full_msg.max_size
    · rw [insert_retry st dst eff h1 h2]
      show (flush_and_reset st).full_msg.header_guid = _
      exact flush_and_reset_guid st
    · rw [insert_too_big st dst eff h1 h2]
      exact flush_and_reset_guid st

theorem guid_add_data (st : GroupState) (dst eff : Nat) :
    (add_data st dst eff).1.full_msg.header_guid = st.full_msg.header_guid := by
  rw [add_data, guid_insert, guid_check]

theorem len_ge_check (st : GroupState) (dst : Nat)
    (h : RTPSMESSAGE_HEADER_SIZE ≤ st.full_msg.length) :
    RTPSMESSAGE_HEADER_SIZE ≤ (check_and_maybe_flush st dst).full_msg.length := by
  cases hc : st.current_dst with
  | none =>
    rw [check_new_dst st dst hc]
    show RTPSMESSAGE_HEADER_SIZE ≤ st.full_msg.length + INFO_DST_SUBMESSAGE_SIZE
    omega
  | some d =>
    by_cases hd : d = dst
    · rw [hd] at hc
      rw [check_same_dst st dst hc]; exact h
    · rw [check_change_dst st d dst hc hd]
      show RTPSMESSAGE_HEADER_SIZE ≤
        (flush_and_reset st).full_msg.length + INFO_DST_SUBMESSAGE_SIZE
      rw [flush_and_reset_len]
      omega

theorem len_ge_insert (st : GroupState) (dst eff : Nat)
    (h : RTPSMESSAGE_HEADER_SIZE ≤ st.full_msg.length) :
    RTPSMESSAGE_HEADER_SIZE ≤ (insert_submessage st dst eff).1.full_msg.length := by
  by_cases h1 : RTPSMESSAGE_HEADER_SIZE + st.full_msg.length + eff ≤ st.full_msg.max_size
  · rw [insert_fits st dst eff h1]
    show RTPSMESSAGE_HEADER_SIZE ≤ st.full_msg.length + eff
    omega
  · by_cases h2 : RTPSMESSAGE_HEADER_SIZE + RTPSMESSAGE_HEADER_SIZE +
        INFO_DST_SUBMESSAGE_SIZE + eff ≤ st.full_msg.max_size
    · rw [insert_retry st dst eff h1 h2]
      show RTPSMESSAGE_HEADER_SIZE ≤
        (flush_and_reset st).full_msg.length + INFO_DST_SUBMESSAGE_SIZE + eff
      rw [flush_and_reset_len]
      omega
    · rw [insert_too_big st dst eff h1 h2]
      rw [flush_and_reset_len]

theorem len_ge_add_data (st : GroupState) (dst eff : Nat)
    (h : RTPSMESSAGE_HEADER_SIZE ≤ st.full_msg.length) :
    RTPSMESSAGE_HEADER_SIZE ≤ (add_data st dst eff).1.full_msg.length :=
  len_ge_insert (check_and_maybe_flush st dst) dst eff (len_ge_check st dst h)

theorem run_adds_fits (dst : Nat) (effs : List Nat) : ∀ st : GroupState,
    st.current_dst = some dst →
    RTPSMESSAGE_HEADER_SIZE + st.full_msg.length + effs.sum ≤ st.full_msg.max_size →
    run_adds st dst effs =
      ({ st with full_msg :=
          { st.full_msg with length := st.full_msg.length + effs.sum } }, true) := by
  induction effs with
  | nil =>
    intro st h hcap
    simp [run_adds]
  | cons e rest ih =>
    intro st h hcap
    have hsum : (e :: rest).sum = e + rest.sum := by simp
    rw [hsum] at hcap
    have hfit1 : RTPSMESSAGE_HEADER_SIZE + st.full_msg.length + e
        ≤ st.full_msg.max_size := by omega
    have hstep : add_data st dst e = (append_bytes st e, true) := by
      rw [add_data, check_same_dst st dst h, insert_fits st dst e hfit1]
    have hdst2 : (append_bytes st e).current_dst = some dst := h
    have hcap2 : RTPSMESSAGE_HEADER_SIZE + (append_bytes st e).full_msg.length
        + rest.sum ≤ (append_bytes st e).full_msg.max_size := by
      show RTPSMESSAGE_HEADER_SIZE + (st.full_msg.length + e) + rest.sum
        ≤ st.full_msg.max_size
      omega
    have hrec := ih (append_bytes st e) hdst2 hcap2
    rw [run_adds, hstep, hrec]
    simp [append_bytes, Nat.add_assoc]

theorem run_adds_cons (st : GroupState) (dst e : Nat) (rest : List Nat) :
    run_adds st dst (e :: rest) =
      ((run_adds (add_data st dst e).1 dst rest).1,
        (add_data st dst e).2 && (run_adds (add_data st dst e).1 dst rest).2) := rfl

/-- Claim C1, counterexample to the original statement: under Scenario B's
parameters (capacity 16384, header 20, destination framing 16, four
add_data calls of 4000 effective bytes each to one destination) the four
submessages total only 16036 bytes, which does not exceed the capacity
16384, so the fourth add_data triggers no flush: by teardown exactly one
send occurs, of 16036 bytes, not two sends of 12036 and 4036 bytes. -/
theorem C1_scenarioB_counterexample :
    RTPSMESSAGE_HEADER_SIZE + INFO_DST_SUBMESSAGE_SIZE + 4 * 4000 ≤ 16384 ∧
    (run_adds (initial 16384 7 false false) 0 [4000, 4000, 4000, 4000]).2 = true ∧
    scenarioB_final.sends = [16036] ∧
    scenarioB_final.sends.length = 1 ∧
    ¬ scenarioB_final.sends = [12036, 4036] := by
  decide

/-- Claim C1 (amended): for an add-* call targeting the destination already
framed in the full buffer whose effective bytes make header_length +
full_buffer_length + effective_length exceed the message capacity, while
the submessage plus the unavoidable destination-framing overhead still fits
in a freshly reset buffer, the group first flushes (sends) the accumulated
full buffer, resets it to header-only, re-frames the destination and then
appends the submessage; under Scenario B's parameters, however, the fourth
add_data only brings the total to 16036 bytes, which does not exceed the
capacity 16384, so it is appended without any flush and a single send of
16036 bytes occurs by teardown. -/
theorem C1_overflow_flush_reframe_append (st : GroupState) (dst eff : Nat)
    (hdst : st.current_dst = some dst)
    (hlen : RTPSMESSAGE_HEADER_SIZE < st.full_msg.length)
    (hover : st.full_msg.max_size <
      RTPSMESSAGE_HEADER_SIZE + st.full_msg.length + eff)
    (hfit : RTPSMESSAGE_HEADER_SIZE + RTPSMESSAGE_HEADER_SIZE +
      INFO_DST_SUBMESSAGE_SIZE + eff ≤ st.full_msg.max_size) :
    add_data st dst eff =
      ({ full_msg := { st.full_msg with
            length := RTPSMESSAGE_HEADER_SIZE + INFO_DST_SUBMESSAGE_SIZE + eff }
       , current_dst := some dst
       , currentBytesSent := st.currentBytesSent + st.full_msg.length
       , sends := st.sends ++ [st.full_msg.length] }, true) ∧
    scenarioB_final.sends = [16036] := by
  constructor
  · rw [add_data, check_same_dst st dst hdst,
      insert_retry st dst eff (by omega) hfit]
    rw [flush_and_reset_eq]
    simp [add_info_dst, append_bytes, hlen, Nat.add_assoc]
  · decide

theorem C1_overflow_flush_reframe_append_witness :
    (add_data (run_adds (initial 16000 7 false false) 0 [4000, 4000, 4000]).1
        0 4000).1.sends = [12036] ∧
    (add_data (run_adds (initial 16000 7 false false) 0 [4000, 4000, 4000]).1
        0 4000).1.full_msg.length = 4036 ∧
    (add_data (run_adds (initial 16000 7 false false) 0 [4000, 4000, 4000]).1
        0 4000).2 = true := by
  have h := C1_overflow_flush_reframe_append
    (run_adds (initial 16000 7 false false) 0 [4000, 4000, 4000]).1 0 4000
    (by decide) (by decide) (by decide) (by decide)
  rw [h.1]
  refine ⟨?_, ?_, rfl⟩ <;> decide

/-- Claim C2, counterexample to the original statement: with one 4000-byte
submessage already accumulated (full buffer 4036 bytes, destination framed),
an add-* call whose effective submessage is 16400 bytes (Scenario C's
oversized call, capacity 16384) returns false, but the group is not left
exactly as it was: the previously accumulated content is flushed (the
bytes-processed counter rises from 0 to 4036), the full buffer is reset
from 4036 bytes to header-only, and the destination tracker is cleared. -/
theorem C2_oversized_state_counterexample :
    (add_data (add_data (initial 16384 7 false false) 0 4000).1 0 16400).2 = false ∧
    (add_data (initial 16384 7 false false) 0 4000).1.currentBytesSent = 0 ∧
    (add_data (add_data (initial 16384 7 false false) 0 4000).1
        0 16400).1.currentBytesSent = 4036 ∧
    (add_data (initial 16384 7 false false) 0 4000).1.full_msg.length = 4036 ∧
    (add_data (add_data (initial 16384 7 false false) 0 4000).1
        0 16400).1.full_msg.length = 20 ∧
    (add_data (initial 16384 7 false false) 0 4000).1.current_dst = some 0 ∧
    (add_data (add_data (initial 16384 7 false false) 0 4000).1
        0 16400).1.current_dst = none := by
  decide

/-- Claim C2 (amended): an add-* call whose effective submessage length,
plus the unavoidable header and destination-framing overhead, exceeds the
capacity even in an otherwise-empty buffer returns false and appends
nothing, leaving the full buffer reset to header-only with no destination
framed; it does not leave the group untouched, since any previously
accumulated content is first flushed to the sender, increasing the
bytes-processed counter. -/
theorem C2_oversized_returns_false (st : GroupState) (dst eff : Nat)
    (hlen : RTPSMESSAGE_HEADER_SIZE ≤ st.full_msg.length)
    (hframed : st.current_dst.isSome = true →
      RTPSMESSAGE_HEADER_SIZE + INFO_DST_SUBMESSAGE_SIZE ≤ st.full_msg.length)
    (hbig : st.full_msg.max_size < RTPSMESSAGE_HEADER_SIZE +
      RTPSMESSAGE_HEADER_SIZE + INFO_DST_SUBMESSAGE_SIZE + eff) :
    (add_data st dst eff).2 = false ∧
    (add_data st dst eff).1.full_msg.length = RTPSMESSAGE_HEADER_SIZE ∧
    (add_data st dst eff).1.current_dst = none := by
  have key : insert_submessage (check_and_maybe_flush st dst) dst eff =
      (flush_and_reset (check_and_maybe_flush st dst), false) := by
    cases hc : st.current_dst with
    | none =>
      rw [check_new_dst st dst hc]
      refine insert_too_big _ dst eff ?_ ?_
      · show ¬ RTPSMESSAGE_HEADER_SIZE +
          (st.full_msg.length + INFO_DST_SUBMESSAGE_SIZE) + eff ≤ st.full_msg.max_size
        omega
      · show ¬ RTPSMESSAGE_HEADER_SIZE + RTPSMESSAGE_HEADER_SIZE +
          INFO_DST_SUBMESSAGE_SIZE + eff ≤ st.full_msg.max_size
        omega
    | some d =>
      by_cases hd : d = dst
      · rw [hd] at hc
        rw [check_same_dst st dst hc]
        have hl1 : RTPSMESSAGE_HEADER_SIZE + INFO_DST_SUBMESSAGE_SIZE
            ≤ st.full_msg.length := hframed (by rw [hc]; rfl)
        exact insert_too_big st dst eff (by omega) (by omega)
      · rw [check_change_dst st d dst hc hd]
        refine insert_too_big _ dst eff ?_ ?_
        · show ¬ RTPSMESSAGE_HEADER_SIZE +
            ((flush_and_reset st).full_msg.length + INFO_DST_SUBMESSAGE_SIZE) + eff ≤
            (flush_and_reset st).full_msg.max_size
          rw [flush_and_reset_len, flush_and_reset_max]
          omega
        · show ¬ RTPSMESSAGE_HEADER_SIZE + RTPSMESSAGE_HEADER_SIZE +
            INFO_DST_SUBMESSAGE_SIZE + eff ≤ (flush_and_reset st).full_msg.max_size
          rw [flush_and_reset_max]
          omega
  rw [add_data, key]
  exact ⟨rfl, flush_and_reset_len _, flush_and_reset_dst _⟩

theorem C2_oversized_returns_false_witness :
    (add_data (add_data (initial 16384 7 false false) 0 4000).1 5 16400).2 = false ∧
    (add_data (add_data (initial 16384 7 false false) 0 4000).1
        5 16400).1.full_msg.length = RTPSMESSAGE_HEADER_SIZE ∧
    (add_data (add_data (initial 16384 7 false false) 0 4000).1
        5 16400).1.current_dst = none :=
  C2_oversized_returns_false (add_data (initial 16384 7 false false) 0 4000).1
    5 16400 (by decide) (by decide) (by decide)

/-- Claim C3: when an add-* call targets a destination different from the
one currently framed in the full buffer, the group performs exactly one
intermediate flush (one send of the accumulated buffer), resets to
header-only, frames the new destination, and only then appends the call's
submessage (the submessage fitting in the freshly framed buffer). -/
theorem C3_destination_change_single_flush (st : GroupState) (d dst eff : Nat)
    (hdst : st.current_dst = some d) (hne : d ≠ dst)
    (hlen : RTPSMESSAGE_HEADER_SIZE < st.full_msg.length)
    (hfit : RTPSMESSAGE_HEADER_SIZE + RTPSMESSAGE_HEADER_SIZE +
      INFO_DST_SUBMESSAGE_SIZE + eff ≤ st.full_msg.max_size) :
    add_data st dst eff =
      ({ full_msg := { st.full_msg with
            length := RTPSMESSAGE_HEADER_SIZE + INFO_DST_SUBMESSAGE_SIZE + eff }
       , current_dst := some dst
       , currentBytesSent := st.currentBytesSent + st.full_msg.length
       , sends := st.sends ++ [st.full_msg.length] }, true) := by
  rw [add_data, check_change_dst st d dst hdst hne]
  have hfit1 : RTPSMESSAGE_HEADER_SIZE +
      (add_info_dst (flush_and_reset st) dst).full_msg.length + eff ≤
      (add_info_dst (flush_and_reset st) dst).full_msg.max_size := by
    show RTPSMESSAGE_HEADER_SIZE +
      ((flush_and_reset st).full_msg.length + INFO_DST_SUBMESSAGE_SIZE) + eff ≤
      (flush_and_reset st).full_msg.max_size
    rw [flush_and_reset_len, flush_and_reset_max]
    omega
  rw [insert_fits _ dst eff hfit1]
  rw [flush_and_reset_eq]
  simp [add_info_dst, append_bytes, hlen, Nat.add_assoc]

theorem C3_destination_change_single_flush_witness :
    (add_data (add_data (initial 16384 7 false false) 5 4000).1 9 1000).1.sends
      = [4036] ∧
    (add_data (add_data (initial 16384 7 false false) 5 4000).1
        9 1000).1.full_msg.length = 1036 ∧
    (add_data (add_data (initial 16384 7 false false) 5 4000).1
        9 1000).1.current_dst = some 9 ∧
    (add_data (add_data (initial 16384 7 false false) 5 4000).1 9 1000).2 = true := by
  have h := C3_destination_change_single_flush
    (add_data (initial 16384 7 false false) 5 4000).1 5 9 1000
    (by decide) (by decide) (by decide) (by decide)
  rw [h]
  refine ⟨?_, ?_, rfl, rfl⟩ <;> decide

/-- Claim C4, counterexample to the original statement: capacity 16384 with
two add_data calls of 12000 and 4340 effective bytes to one destination
has cumulative encoded length 20 + 16 + 16340 = 16376, within capacity,
yet two sends occur by teardown (12036 bytes and then 4376 bytes), because
the insertion algorithm's overflow check charges the header length on top
of the full buffer length, which already contains the header. -/
theorem C4_boundary_counterexample :
    RTPSMESSAGE_HEADER_SIZE + INFO_DST_SUBMESSAGE_SIZE +
      ([12000, 4340] : List Nat).sum ≤ 16384 ∧
    (run_adds (initial 16384 7 false false) 0 [12000, 4340]).2 = true ∧
    (flush_and_reset (run_adds (initial 16384 7 false false) 0 [12000, 4340]).1).sends
      = [12036, 4376] ∧
    (flush_and_reset
        (run_adds (initial 16384 7 false false) 0 [12000, 4340]).1).sends.length ≠ 1 := by
  decide

/-- Claim C4 (amended): for any nonempty sequence of add-* calls to a
single destination whose cumulative encoded length, including the header
and one destination-framing submessage, stays within capacity even after
charging one further header length (the margin the insertion algorithm's
overflow check demands), every call succeeds, no send occurs during the
adds, and exactly one send occurs at the explicit flush or teardown,
carrying the header, the destination framing and all the effective bytes. -/
theorem C4_single_destination_single_send (payload participant_guid dst : Nat)
    (effs : List Nat) (hne : effs ≠ [])
    (hcap : RTPSMESSAGE_HEADER_SIZE +
      (RTPSMESSAGE_HEADER_SIZE + INFO_DST_SUBMESSAGE_SIZE + effs.sum) ≤ payload) :
    (run_adds (initial payload participant_guid false false) dst effs).2 = true ∧
    (run_adds (initial payload participant_guid false false) dst effs).1.sends = [] ∧
    (flush_and_reset
        (run_adds (initial payload participant_guid false false) dst effs).1).sends
      = [RTPSMESSAGE_HEADER_SIZE + INFO_DST_SUBMESSAGE_SIZE + effs.sum] := by
  obtain ⟨e, rest, rfl⟩ : ∃ a b, effs = a :: b := by
    cases effs with
    | nil => exact absurd rfl hne
    | cons a b => exact ⟨a, b, rfl⟩
  have hsum : (e :: rest).sum = e + rest.sum := by simp
  rw [hsum] at hcap
  have hdst0 : (initial payload participant_guid false false).current_dst = none := rfl
  have hstep : add_data (initial payload participant_guid false false) dst e =
      (append_bytes
        (add_info_dst (initial payload participant_guid false false) dst) e, true) := by
    rw [add_data, check_new_dst _ dst hdst0]
    refine insert_fits _ dst e ?_
    show RTPSMESSAGE_HEADER_SIZE +
      (RTPSMESSAGE_HEADER_SIZE + INFO_DST_SUBMESSAGE_SIZE) + e ≤ payload
    omega
  have h1 : (add_data (initial payload participant_guid false false) dst e).1 =
      append_bytes (add_info_dst (initial payload participant_guid false false) dst) e := by
    rw [hstep]
  have h2 : (add_data (initial payload participant_guid false false) dst e).2 = true := by
    rw [hstep]
  have hS1dst : (append_bytes
      (add_info_dst (initial payload participant_guid false false) dst) e).current_dst
      = some dst := rfl
  have hS1cap : RTPSMESSAGE_HEADER_SIZE +
      (append_bytes
        (add_info_dst (initial payload participant_guid false false) dst) e).full_msg.length
      + rest.sum ≤
      (append_bytes
        (add_info_dst (initial payload participant_guid false false) dst) e).full_msg.max_size := by
    show RTPSMESSAGE_HEADER_SIZE +
      (RTPSMESSAGE_HEADER_SIZE + INFO_DST_SUBMESSAGE_SIZE + e) + rest.sum ≤ payload
    omega
  have hrec := run_adds_fits dst rest _ hS1dst hS1cap
  rw [run_adds_cons, h1, h2, hrec]
  refine ⟨rfl, rfl, teardown_sends_single _ _ rfl ?_ ?_⟩
  · show RTPSMESSAGE_HEADER_SIZE + INFO_DST_SUBMESSAGE_SIZE + e + rest.sum
      = RTPSMESSAGE_HEADER_SIZE + INFO_DST_SUBMESSAGE_SIZE + (e :: rest).sum
    rw [hsum]
    omega
  · rw [hsum]
    simp only [RTPSMESSAGE_HEADER_SIZE, INFO_DST_SUBMESSAGE_SIZE]
    omega

theorem C4_single_destination_single_send_witness :
    (run_adds (initial 16384 7 false false) 0 [4000, 4000, 4000]).2 = true ∧
    (run_adds (initial 16384 7 false false) 0 [4000, 4000, 4000]).1.sends = [] ∧
    (flush_and_reset
        (run_adds (initial 16384 7 false false) 0 [4000, 4000, 4000]).1).sends
      = [RTPSMESSAGE_HEADER_SIZE + INFO_DST_SUBMESSAGE_SIZE +
          ([4000, 4000, 4000] : List Nat).sum] ∧
    RTPSMESSAGE_HEADER_SIZE + INFO_DST_SUBMESSAGE_SIZE +
      ([4000, 4000, 4000] : List Nat).sum = 12036 := by
  have h := C4_single_destination_single_send 16384 7 0 [4000, 4000, 4000]
    (by decide) (by decide)
  exact ⟨h.1, h.2.1, h.2.2, by decide⟩

/-- Claim C5: tearing down a Message Group with content pending performs
the same flush-and-reset work as flush_and_reset, and when the deadline has
passed at the time of this final send the Timeout failure is observable to
the caller (the destructor, declared noexcept(false), propagates the
timeout error) instead of being silently swallowed. -/
theorem C5_teardown_flush_or_timeout (st : GroupState) (now deadline : Nat)
    (hpend : RTPSMESSAGE_HEADER_SIZE < st.full_msg.length) :
    (now ≤ deadline → teardown st now deadline = Except.ok (flush_and_reset st)) ∧
    (deadline < now → teardown st now deadline = Except.error GroupError.timeout) := by
  refine ⟨fun h => ?_, fun h => ?_⟩
  · unfold teardown
    rw [if_pos hpend, if_neg (by omega)]
  · unfold teardown
    rw [if_pos hpend, if_pos h]

theorem C5_teardown_flush_or_timeout_witness :
    teardown (add_data (initial 16384 7 false false) 0 4000).1 5 10 =
      Except.ok (flush_and_reset (add_data (initial 16384 7 false false) 0 4000).1) ∧
    teardown (add_data (initial 16384 7 false false) 0 4000).1 10 5 =
      Except.error GroupError.timeout := by
  have ha := C5_teardown_flush_or_timeout
    (add_data (initial 16384 7 false false) 0 4000).1 5 10 (by decide)
  have hb := C5_teardown_flush_or_timeout
    (add_data (initial 16384 7 false false) 0 4000).1 10 5 (by decide)
  exact ⟨ha.1 (by omega), hb.2 (by omega)⟩

/-- Claim C6: get_current_bytes_processed returns exactly the bytes already
handed to the sender across prior flushes in the batch (the sum of the sent
message lengths) plus the current full buffer's length; its value is
monotonically non-decreasing across add-* and flush_and_reset operations;
being a pure accessor of the state it modifies no group state. -/
theorem C6_bytes_processed_monotone (st : GroupState) (dst eff : Nat)
    (hacc : st.currentBytesSent = st.sends.sum) :
    get_current_bytes_processed st = st.sends.sum + st.full_msg.length ∧
    (add_data st dst eff).1.currentBytesSent = (add_data st dst eff).1.sends.sum ∧
    (flush_and_reset st).currentBytesSent = (flush_and_reset st).sends.sum ∧
    get_current_bytes_processed st ≤
      get_current_bytes_processed (add_data st dst eff).1 ∧
    get_current_bytes_processed st ≤
      get_current_bytes_processed (flush_and_reset st) := by
  refine ⟨?_, acc_add_data st dst eff hacc, acc_flush_and_reset st hacc,
    gcbp_add_data_ge st dst eff, gcbp_flush_and_reset_ge st⟩
  rw [get_current_bytes_processed, hacc]

theorem C6_bytes_processed_monotone_witness :
    get_current_bytes_processed (initial 16384 7 false false) =
      (initial 16384 7 false false).sends.sum +
        (initial 16384 7 false false).full_msg.length ∧
    (add_data (initial 16384 7 false false) 0 4000).1.currentBytesSent =
      (add_data (initial 16384 7 false false) 0 4000).1.sends.sum ∧
    (flush_and_reset (initial 16384 7 false false)).currentBytesSent =
      (flush_and_reset (initial 16384 7 false false)).sends.sum ∧
    get_current_bytes_processed (initial 16384 7 false false) ≤
      get_current_bytes_processed (add_data (initial 16384 7 false false) 0 4000).1 ∧
    get_current_bytes_processed (initial 16384 7 false false) ≤
      get_current_bytes_processed (flush_and_reset (initial 16384 7 false false)) :=
  C6_bytes_processed_monotone (initial 16384 7 false false) 0 4000 rfl

/-- Claim C7: flush_and_reset forces a send of any accumulated content and
returns the group to the empty state (full buffer truncated to header-only,
no destination framed); a second flush_and_reset immediately after, with no
add-* call in between, issues no second send (the empty flush is
idempotent on the send history). -/
theorem C7_flush_and_reset_idempotent (st : GroupState) :
    (flush_and_reset st).full_msg.length = RTPSMESSAGE_HEADER_SIZE ∧
    (flush_and_reset st).current_dst = none ∧
    (flush_and_reset st).sends = st.sends ++
      (if RTPSMESSAGE_HEADER_SIZE < st.full_msg.length
        then [st.full_msg.length] else []) ∧
    (flush_and_reset (flush_and_reset st)).sends = (flush_and_reset st).sends := by
  refine ⟨flush_and_reset_len st, flush_and_reset_dst st, ?_, ?_⟩
  · rw [flush_and_reset_eq]
  · rw [flush_and_reset_eq (flush_and_reset st), flush_and_reset_len]
    show (flush_and_reset st).sends ++
      (if RTPSMESSAGE_HEADER_SIZE < RTPSMESSAGE_HEADER_SIZE
        then [RTPSMESSAGE_HEADER_SIZE] else []) = (flush_and_reset st).sends
    rw [if_neg (lt_irrefl RTPSMESSAGE_HEADER_SIZE)]
    exact List.append_nil _

/-- Claim C8: construction writes the protocol header carrying the sender
participant's id into the full buffer; no add-* or flush operation ever
mutates it; and every operation preserves the invariant that the full
buffer's length is at least the header length. -/
theorem C8_header_written_once_preserved (payload participant_guid : Nat)
    (have_security has_security : Bool) (st : GroupState) (dst eff : Nat)
    (hlen : RTPSMESSAGE_HEADER_SIZE ≤ st.full_msg.length) :
    (initial payload participant_guid have_security has_security).full_msg.header_guid
      = some participant_guid ∧
    (initial payload participant_guid have_security has_security).full_msg.length
      = RTPSMESSAGE_HEADER_SIZE ∧
    (add_data st dst eff).1.full_msg.header_guid = st.full_msg.header_guid ∧
    (flush_and_reset st).full_msg.header_guid = st.full_msg.header_guid ∧
    RTPSMESSAGE_HEADER_SIZE ≤ (add_data st dst eff).1.full_msg.length ∧
    RTPSMESSAGE_HEADER_SIZE ≤ (flush_and_reset st).full_msg.length := by
  refine ⟨rfl, rfl, guid_add_data st dst eff, flush_and_reset_guid st,
    len_ge_add_data st dst eff hlen, ?_⟩
  rw [flush_and_reset_len]

theorem C8_header_written_once_preserved_witness :
    (initial 16384 7 false false).full_msg.header_guid = some 7 ∧
    (initial 16384 7 false false).full_msg.length = RTPSMESSAGE_HEADER_SIZE ∧
    (add_data (initial 16384 7 false false) 0 4000).1.full_msg.header_guid =
      (initial 16384 7 false false).full_msg.header_guid ∧
    (flush_and_reset (initial 16384 7 false false)).full_msg.header_guid =
      (initial 16384 7 false false).full_msg.header_guid ∧
    RTPSMESSAGE_HEADER_SIZE ≤
      (add_data (initial 16384 7 false false) 0 4000).1.full_msg.length ∧
    RTPSMESSAGE_HEADER_SIZE ≤
      (flush_and_reset (initial 16384 7 false false)).full_msg.length :=
  C8_header_written_once_preserved 16384 7 false false
    (initial 16384 7 false false) 0 4000 (by decide)

/-- Claim C9: when the caller omits the deadline argument, the constructor
binds the default deadline, which is the construction-time monotonic clock
reading plus 24 hours: a long but finite horizon, so a blocking send under
the default waits at most a day. -/
theorem C9_default_deadline_24_hours (now : Nat) :
    default_max_blocking_time_point now = now + chrono_hours 24 ∧
    default_max_blocking_time_point now - now = chrono_hours 24 ∧
    chrono_hours 24 = 86400000000000 := by
  refine ⟨rfl, ?_, by norm_num [chrono_hours]⟩
  rw [default_max_blocking_time_point]
  omega

/-- Claim C10: for every capacity payload and flag has_security, the
RTPSMessageGroup_t constructor allocates the scratch submessage buffer and
the full message buffer with the same capacity payload, and, when the
security feature is compiled in, allocates the encryption buffer with
capacity payload if has_security is true and capacity 0 if it is false
(no encryption buffer exists when the feature is compiled out). -/
theorem C10_buffer_capacities (payload participant_guid : Nat)
    (have_security has_security : Bool) :
    (RTPSMessageGroup_t.construct payload participant_guid
        have_security has_security).rtpsmsg_submessage_.max_size = payload ∧
    (RTPSMessageGroup_t.construct payload participant_guid
        have_security has_security).rtpsmsg_fullmsg_.max_size = payload ∧
    ((RTPSMessageGroup_t.construct payload participant_guid
        have_security has_security).rtpsmsg_encrypt_).map CDRMessage_t.max_size =
      (if have_security then some (if has_security then payload else 0) else none) := by
  refine ⟨rfl, rfl, ?_⟩
  cases have_security <;> cases has_security <;> rfl

end GroupState

end FastRTPS
